import Mathlib

/-!
# Verification of the RestAPI post-creation handler

Shallow embedding of the `create` handler
(`resources/handlers/posts/create.ts`) and of the API Gateway method
declarations of `RestApiStack` (the CDK stack file), together with an
association-list model of the DynamoDB table and of JavaScript object
spread semantics.

External runtime calls are made explicit parameters of the embedded
handler: `uuid` is the value returned by `randomUUID()`, `parseJSON`
models `JSON.parse` (`.error` = a thrown `SyntaxError`), and `send`
models `dynamodb.send` (`.error` = a rejected promise, i.e. a store
failure). The handler result is the list of `PutCommand` inputs it
issued, paired with either a returned HTTP response (`.ok`) or an
uncaught exception (`.error`).
-/

namespace RestAPI

/-- A JavaScript object with string attribute values, as an association
list in property order (the form relevant to the handler: the parsed
request body and the DynamoDB item). -/
abbrev Obj := List (String × String)

/-- Property assignment `o[k] = v` on a JavaScript object (and likewise
item replacement in a table keyed by `pk`): if the key is present its
value is replaced in place (property order kept), otherwise the entry is
appended. -/
def assocSet {α : Type} : List (String × α) → String → α → List (String × α)
  | [], k, v => [(k, v)]
  | (k', v') :: t, k, v =>
      if k' = k then (k, v) :: t else (k', v') :: assocSet t k v

/-- Property lookup `o[k]` on a JavaScript object (and likewise item
lookup in a table keyed by `pk`). -/
def assocGet {α : Type} : List (String × α) → String → Option α
  | [], _ => none
  | (k', v') :: t, k => if k' = k then some v' else assocGet t k

/-- The object literal `\x7b ...o, ...fields \x7d`: starting from `o`, assign
every property of `fields` in order (later assignments override earlier
keys — JavaScript spread semantics). -/
def objSpread (o : Obj) (fields : Obj) : Obj :=
  fields.foldl (fun acc p => assocSet acc p.1 p.2) o

/-- Input of the `PutCommand` sent by the handler: the table name read
from the environment (possibly undefined) and the item. Field names
follow the AWS SDK. -/
structure PutCommandInput where
  TableName : Option String
  Item : Obj
deriving Repr, DecidableEq

/-- The handler's process environment: `TABLE_NAME` is the single
configuration value read by the handler (`process.env.TABLE_NAME`),
which is undefined when not configured. -/
structure Env where
  TABLE_NAME : Option String
deriving Repr, DecidableEq

/-- An HTTP response as returned by the handler. -/
structure HttpResponse where
  statusCode : Nat
  body : String
deriving Repr, DecidableEq

/-- An uncaught JavaScript exception escaping the handler: `parseError`
is the `SyntaxError` thrown by `JSON.parse` on invalid JSON,
`storeError` is a rejection of the `dynamodb.send` promise. -/
inductive JsError where
  | parseError (msg : String)
  | storeError (msg : String)
deriving Repr, DecidableEq

/-- `JSON.stringify(\x7b message: 'Missing body' \x7d)`. -/
def missingBodyJson : String := "\x7b\"message\":\"Missing body\"\x7d"

/-- `JSON.stringify(\x7b message: 'Post created' \x7d)`. -/
def postCreatedJson : String := "\x7b\"message\":\"Post created\"\x7d"

/-- Shallow embedding of `create` from
`resources/handlers/posts/create.ts`.

The source checks `if (!body)`; for a value of TypeScript type
`string | null` the falsy values are exactly `null` (here `none`) and
the empty string, so the embedding matches on `none` and on `some ""`.
Otherwise the body is parsed (`JSON.parse(body) as IPost`; the `as`
cast has no runtime effect, so the parse result is an arbitrary
object), the item `\x7b pk: POST#uuid, ...bodyParsed \x7d` is put to the
table named by the environment, and on success `200 Post created` is
returned. A parse failure or a store failure escapes as an uncaught
exception. The first component of the result lists the `PutCommand`
inputs issued, in order; `send` is consulted exactly once, on the single
command issued, and only the outcome depends on its result. -/
def create (parseJSON : String → Except String Obj)
    (send : PutCommandInput → Except String Unit)
    (env : Env) (uuid : String) (body : Option String) :
    List PutCommandInput × Except JsError HttpResponse :=
  match body with
  | none => ([], .ok { statusCode := 400, body := missingBodyJson })
  | some b =>
    if b = "" then
      ([], .ok { statusCode := 400, body := missingBodyJson })
    else
      match parseJSON b with
      | .error e => ([], .error (.parseError e))
      | .ok bodyParsed =>
        let cmd : PutCommandInput :=
          { TableName := env.TABLE_NAME
            Item := objSpread [("pk", "POST#" ++ uuid)] bodyParsed }
        ([cmd],
         match send cmd with
         | .error e => .error (.storeError e)
         | .ok _ => .ok { statusCode := 200, body := postCreatedJson })

/-- The DynamoDB table state: items keyed by the value of their `pk`
attribute (the table's partition key, per the
`partitionKey: \x7b name: 'pk' \x7d` declaration in the stack). -/
abbrev Store := List (String × Obj)

/-- Insert or replace an item keyed by its own `pk` attribute (DynamoDB
`PutItem` semantics); an item without a `pk` attribute is rejected by
DynamoDB, modelled as `none`. -/
def putItem (s : Store) (item : Obj) : Option Store :=
  match assocGet item "pk" with
  | none => none
  | some k => some (assocSet s k item)

/-- Apply a list of issued `PutCommand` inputs to a table state, in
order. -/
def runPuts (s : Store) : List PutCommandInput → Option Store
  | [] => some s
  | c :: rest =>
    match putItem s c.Item with
    | none => none
    | some s2 => runPuts s2 rest

/-- The fields of a parsed post payload
`\x7b title, description, author, publicationDate \x7d`, in JSON property
order (the `IPost` shape referenced by the handler, as documented in the
README's post data schema). -/
def postFields (title description author publicationDate : String) : Obj :=
  [("title", title), ("description", description),
   ("author", author), ("publicationDate", publicationDate)]

/-- Modelled from the spec: the get-one handler
(`resources/handlers/posts/get-one.ts`, listed in the README project
structure but not present under `src/`). Per spec §4.5 it looks up the
record keyed by the namespaced identifier (`POST#` ++ id); if absent it
responds 404 (body `\x7b"message":"Post not found"\x7d`, here the record
component is `none`), if present it responds 200 with the record. -/
def getOne (s : Store) (id : String) : Nat × Option Obj :=
  match assocGet s ("POST#" ++ id) with
  | none => (404, none)
  | some record => (200, some record)

/-- One `addMethod` declaration of the CDK stack: the resource path, the
HTTP method, and the `apiKeyRequired` method option. -/
structure ApiMethod where
  resourcePath : String
  httpMethod : String
  apiKeyRequired : Bool
deriving Repr, DecidableEq

/-- Shallow embedding of the endpoint declarations of `RestApiStack`
(the CDK stack source): resource `/posts` with methods GET and POST, its
child resource `/posts/\x7bid\x7d` with methods GET and DELETE, each declared
with `apiKeyRequired: true`. -/
def restApiMethods : List ApiMethod :=
  [ { resourcePath := "/posts", httpMethod := "GET", apiKeyRequired := true },
    { resourcePath := "/posts", httpMethod := "POST", apiKeyRequired := true },
    { resourcePath := "/posts/\x7bid\x7d", httpMethod := "GET", apiKeyRequired := true },
    { resourcePath := "/posts/\x7bid\x7d", httpMethod := "DELETE", apiKeyRequired := true } ]

/-- The `apiKeySourceType` of the `RestApi` construct in the stack:
`ApiKeySourceType.HEADER`, i.e. the API key is transmitted via a
header. -/
def apiKeySource : String := "HEADER"

/-! ## Concrete instances of the external calls, for witnesses -/

/-- A `dynamodb.send` whose promise always resolves. -/
def sendOk : PutCommandInput → Except String Unit := fun _ => .ok ()

/-- A `dynamodb.send` whose promise always rejects (store failure). -/
def sendFail : PutCommandInput → Except String Unit :=
  fun _ => .error "ServiceUnavailable"

/-- A concrete environment with the table name configured. -/
def env0 : Env := { TABLE_NAME := some "RestApiStack-DbTable" }

/-- The README's example request body, as a JSON text. -/
def bodyA : String :=
  "\x7b\"title\":\"A\",\"description\":\"d\",\"author\":\"a\",\"publicationDate\":\"2025-01-01\"\x7d"

/-- A request body that supplies a `pk` attribute of its own. -/
def bodyEvil : String := "\x7b\"pk\":\"EVIL\"\x7d"

/-- Modelled from the JS runtime: `JSON.parse` evaluated at the two
concrete request bodies used in witnesses and counterexamples (each a
flat JSON object of string members, parsing to exactly the listed
properties in order under ECMAScript `JSON.parse`); every other input is
treated as throwing, as `JSON.parse` throws a `SyntaxError` on invalid
JSON — in particular on the empty string and on `"not json"`. -/
def parseJSONConcrete : String → Except String Obj := fun s =>
  if s = bodyA then .ok (postFields "A" "d" "a" "2025-01-01")
  else if s = bodyEvil then .ok [("pk", "EVIL")]
  else .error "Unexpected token"

/-! ## Association-list lemmas -/

theorem assocGet_assocSet_self {α : Type} (l : List (String × α)) (k : String) (v : α) :
    assocGet (assocSet l k v) k = some v := by
  induction l with
  | nil => simp [assocSet, assocGet]
  | cons q t ih =>
    obtain ⟨k', v'⟩ := q
    by_cases h : k' = k
    · simp [assocSet, assocGet, h]
    · simp [assocSet, assocGet, h, ih]

theorem assocGet_assocSet_ne {α : Type} (l : List (String × α)) (k' k : String) (v : α)
    (h : k' ≠ k) : assocGet (assocSet l k' v) k = assocGet l k := by
  induction l with
  | nil => simp [assocSet, assocGet, h]
  | cons q t ih =>
    obtain ⟨k₀, v₀⟩ := q
    by_cases h0 : k₀ = k'
    · subst h0; simp [assocSet, assocGet, h]
    · by_cases h1 : k₀ = k
      · subst h1; simp [assocSet, assocGet, h0, Ne.symm h]
      · simp [assocSet, assocGet, h0, h1, ih]

theorem assocGet_objSpread_of_not_mem (o fields : Obj) (k : String)
    (h : ∀ q ∈ fields, q.1 ≠ k) :
    assocGet (objSpread o fields) k = assocGet o k := by
  induction fields generalizing o with
  | nil => rfl
  | cons q t ih =>
    have hq : objSpread o (q :: t) = objSpread (assocSet o q.1 q.2) t := rfl
    rw [hq, ih (assocSet o q.1 q.2) (fun r hr => h r (List.mem_cons_of_mem q hr)),
      assocGet_assocSet_ne o q.1 k q.2 (h q (List.mem_cons_self q t))]

theorem append_left_cancel_string (p u v : String) (h : p ++ u = p ++ v) : u = v := by
  have h2 := congrArg String.data h
  simp only [String.data_append] at h2
  exact String.ext (List.append_cancel_left h2)

/-! ## Claim theorems -/

/-- C1: a `create` call with an absent (`null`) body returns HTTP 400
with body `\x7b"message":"Missing body"\x7d`, issues no `PutCommand`, and
leaves every table state unchanged. -/
theorem create_nullBody_400_noWrite
    (parseJSON : String → Except String Obj)
    (send : PutCommandInput → Except String Unit) (env : Env) (uuid : String) :
    create parseJSON send env uuid none =
      ([], .ok { statusCode := 400, body := missingBodyJson }) ∧
    ∀ s : Store, runPuts s (create parseJSON send env uuid none).1 = some s :=
  ⟨rfl, fun _ => rfl⟩

/-- C9: a `create` call whose body is the empty string is treated
identically to an absent body — the `if (!body)` check rejects every
falsy value of `string | null` — returning HTTP 400
`\x7b"message":"Missing body"\x7d` with no `PutCommand` issued and every
table state unchanged. -/
theorem create_emptyBody_eq_nullBody
    (parseJSON : String → Except String Obj)
    (send : PutCommandInput → Except String Unit) (env : Env) (uuid : String) :
    create parseJSON send env uuid (some "") = create parseJSON send env uuid none ∧
    create parseJSON send env uuid (some "") =
      ([], .ok { statusCode := 400, body := missingBodyJson }) ∧
    ∀ s : Store, runPuts s (create parseJSON send env uuid (some "")).1 = some s :=
  ⟨rfl, rfl, fun _ => rfl⟩

/-- C8 counterexample: the empty string is a present body that is not
valid JSON (`JSON.parse("")` throws, as `parseJSONConcrete` records),
yet the handler returns HTTP 400 `Missing body` and propagates no
exception — the falsy-body check fires before parsing, contradicting
the claim at body `some ""`. -/
theorem create_emptyBody_no_exception :
    parseJSONConcrete "" = .error "Unexpected token" ∧
    create parseJSONConcrete sendOk env0 "u" (some "") =
      ([], .ok { statusCode := 400, body := missingBodyJson }) := by
  constructor
  · rfl
  · rfl

/-- C8 (amended): for every `create` call whose body is present,
non-empty, and fails to parse as JSON, no `PutCommand` is issued and the
`SyntaxError` escapes the handler uncaught — no HTTP 400 (or any)
response is returned. -/
theorem create_invalidJson_throws_noWrite
    (parseJSON : String → Except String Obj)
    (send : PutCommandInput → Except String Unit) (env : Env)
    (uuid b e : String) (hb : b ≠ "") (hp : parseJSON b = .error e) :
    create parseJSON send env uuid (some b) = ([], .error (.parseError e)) := by
  simp [create, hb, hp]

/-- Witness for C8 (amended), at the non-JSON body `"not json"`. -/
theorem create_invalidJson_throws_noWrite_witness :
    create parseJSONConcrete sendOk env0 "u" (some "not json") =
      ([], .error (.parseError "Unexpected token")) :=
  create_invalidJson_throws_noWrite parseJSONConcrete sendOk env0 "u" "not json"
    "Unexpected token" (by decide) rfl

/-- C2 counterexample: the item literal `\x7b pk: POST#uuid, ...bodyParsed \x7d`
lets a body that supplies a `pk` member override the generated key
(spread assignments win). Two `create` calls with distinct uuids `u1`,
`u2` and body `\x7b"pk":"EVIL"\x7d` both write an item keyed `"EVIL"`: the
lookup key is caller-supplied, does not contain the generated
identifier, and collides across the two calls. -/
theorem create_pk_override_collision :
    ("u1" : String) ≠ "u2" ∧
    (create parseJSONConcrete sendOk env0 "u1" (some bodyEvil)).1.map
        (fun c => assocGet c.Item "pk") = [some "EVIL"] ∧
    (create parseJSONConcrete sendOk env0 "u2" (some bodyEvil)).1.map
        (fun c => assocGet c.Item "pk") = [some "EVIL"] ∧
    (create parseJSONConcrete sendOk env0 "u1" (some bodyEvil)).1 =
      (create parseJSONConcrete sendOk env0 "u2" (some bodyEvil)).1 := by
  refine ⟨by decide, rfl, rfl, rfl⟩

/-- C2 (amended): provided the parsed body supplies no `pk` member, the
key of the single written item is `POST#` ++ uuid — determined entirely
by the handler-generated identifier, not by the caller — and the
prefixing map is injective, so `create` calls with distinct generated
uuids write records with distinct keys (a body that does supply `pk`
overrides the generated key, per the counterexample). -/
theorem create_key_generated_of_no_pk
    (parseJSON : String → Except String Obj)
    (send : PutCommandInput → Except String Unit) (env : Env)
    (uuid b : String) (fields : Obj) (hb : b ≠ "")
    (hp : parseJSON b = .ok fields) (hpk : ∀ q ∈ fields, q.1 ≠ "pk") :
    (create parseJSON send env uuid (some b)).1.map
        (fun c => assocGet c.Item "pk") = [some ("POST#" ++ uuid)] ∧
    ∀ uuid' : String, "POST#" ++ uuid' = "POST#" ++ uuid → uuid' = uuid := by
  constructor
  · simp [create, hb, hp, assocGet_objSpread_of_not_mem _ _ _ hpk, assocGet]
  · exact fun u' h => append_left_cancel_string "POST#" u' uuid h

/-- Witness for C2 (amended), at the README's example body. -/
theorem create_key_generated_of_no_pk_witness :
    (create parseJSONConcrete sendOk env0 "u1" (some bodyA)).1.map
        (fun c => assocGet c.Item "pk") = [some ("POST#" ++ "u1")] ∧
    ∀ uuid' : String, "POST#" ++ uuid' = "POST#" ++ "u1" → uuid' = "u1" :=
  create_key_generated_of_no_pk parseJSONConcrete sendOk env0 "u1" bodyA
    (postFields "A" "d" "a" "2025-01-01") (by decide) rfl (by decide)

/-- C3: for every `create` call whose body parses to a post payload
(title, description, author, publicationDate — arbitrary strings: no
validation, normalization, or coercion is applied to them), the single
written item is keyed by the attribute `pk = POST#` ++ uuid (namespace
prefix `POST#` concatenated with the generated identifier) and contains
the generated key plus the four parsed body fields verbatim. -/
theorem create_item_verbatim
    (parseJSON : String → Except String Obj)
    (send : PutCommandInput → Except String Unit) (env : Env)
    (uuid b t d a p : String) (hb : b ≠ "")
    (hp : parseJSON b = .ok (postFields t d a p)) :
    (create parseJSON send env uuid (some b)).1.map (fun c => c.Item) =
      [("pk", "POST#" ++ uuid) :: postFields t d a p] ∧
    (create parseJSON send env uuid (some b)).1.map
        (fun c => assocGet c.Item "pk") = [some ("POST#" ++ uuid)] := by
  have hsp : objSpread [("pk", "POST#" ++ uuid)] (postFields t d a p) =
      ("pk", "POST#" ++ uuid) :: postFields t d a p := rfl
  constructor
  · simp [create, hb, hp, hsp]
  · simp [create, hb, hp, hsp, assocGet]

/-- Witness for C3, at the README's example body. -/
theorem create_item_verbatim_witness :
    (create parseJSONConcrete sendOk env0 "u" (some bodyA)).1.map (fun c => c.Item) =
      [("pk", "POST#" ++ "u") :: postFields "A" "d" "a" "2025-01-01"] ∧
    (create parseJSONConcrete sendOk env0 "u" (some bodyA)).1.map
        (fun c => assocGet c.Item "pk") = [some ("POST#" ++ "u")] :=
  create_item_verbatim parseJSONConcrete sendOk env0 "u" bodyA
    "A" "d" "a" "2025-01-01" (by decide) rfl

/-- C4: for every `create` call whose body is present and parses, and
whose store write succeeds, the handler issues exactly one `PutCommand`
— against the table named by the `TABLE_NAME` environment value, the
only configuration the `Env` record carries — and returns HTTP 200 with
body `\x7b"message":"Post created"\x7d`. -/
theorem create_single_write_200
    (parseJSON : String → Except String Obj)
    (send : PutCommandInput → Except String Unit) (env : Env)
    (uuid b : String) (fields : Obj) (hb : b ≠ "")
    (hp : parseJSON b = .ok fields)
    (hs : send { TableName := env.TABLE_NAME,
                 Item := objSpread [("pk", "POST#" ++ uuid)] fields } = .ok ()) :
    create parseJSON send env uuid (some b) =
      ([{ TableName := env.TABLE_NAME,
          Item := objSpread [("pk", "POST#" ++ uuid)] fields }],
       .ok { statusCode := 200, body := postCreatedJson }) := by
  simp [create, hb, hp, hs]

/-- Witness for C4, at the README's example body. -/
theorem create_single_write_200_witness :
    create parseJSONConcrete sendOk env0 "u" (some bodyA) =
      ([{ TableName := env0.TABLE_NAME,
          Item := objSpread [("pk", "POST#" ++ "u")]
            (postFields "A" "d" "a" "2025-01-01") }],
       .ok { statusCode := 200, body := postCreatedJson }) :=
  create_single_write_200 parseJSONConcrete sendOk env0 "u" bodyA
    (postFields "A" "d" "a" "2025-01-01") (by decide) rfl rfl

/-- C5: a `create` of a post payload followed by `getOne` on the
generated identifier returns HTTP 200 with a record equal to the payload
plus the generated key (`pk = POST#` ++ uuid): writing the issued
command into any table state `s` yields a state in which the namespaced
identifier maps to exactly that record. -/
theorem create_then_getOne
    (parseJSON : String → Except String Obj)
    (send : PutCommandInput → Except String Unit) (env : Env)
    (uuid b t d a p : String) (s s' : Store) (hb : b ≠ "")
    (hp : parseJSON b = .ok (postFields t d a p))
    (happly : runPuts s (create parseJSON send env uuid (some b)).1 = some s') :
    getOne s' uuid =
      (200, some (("pk", "POST#" ++ uuid) :: postFields t d a p)) := by
  have hsp : objSpread [("pk", "POST#" ++ uuid)] (postFields t d a p) =
      ("pk", "POST#" ++ uuid) :: postFields t d a p := rfl
  simp [create, hb, hp, runPuts, putItem, hsp, assocGet] at happly
  rw [getOne, ← happly, assocGet_assocSet_self]

/-- Witness for C5: creating the README's example post in the empty
table and reading it back by the generated identifier. -/
theorem create_then_getOne_witness :
    getOne [("POST#" ++ "u",
             ("pk", "POST#" ++ "u") :: postFields "A" "d" "a" "2025-01-01")] "u" =
      (200, some (("pk", "POST#" ++ "u") :: postFields "A" "d" "a" "2025-01-01")) :=
  create_then_getOne parseJSONConcrete sendOk env0 "u" bodyA
    "A" "d" "a" "2025-01-01" []
    [("POST#" ++ "u", ("pk", "POST#" ++ "u") :: postFields "A" "d" "a" "2025-01-01")]
    (by decide) rfl rfl

/-- C6: when the store write fails, the handler issues that single
`PutCommand` and nothing else — no retry, no locally handled error —
and the failure escapes the handler as an uncaught exception instead of
an HTTP response. -/
theorem create_store_failure_propagates
    (parseJSON : String → Except String Obj)
    (send : PutCommandInput → Except String Unit) (env : Env)
    (uuid b e : String) (fields : Obj) (hb : b ≠ "")
    (hp : parseJSON b = .ok fields)
    (hs : send { TableName := env.TABLE_NAME,
                 Item := objSpread [("pk", "POST#" ++ uuid)] fields } = .error e) :
    create parseJSON send env uuid (some b) =
      ([{ TableName := env.TABLE_NAME,
          Item := objSpread [("pk", "POST#" ++ uuid)] fields }],
       .error (.storeError e)) := by
  simp [create, hb, hp, hs]

/-- Witness for C6, with a `send` whose promise always rejects. -/
theorem create_store_failure_propagates_witness :
    create parseJSONConcrete sendFail env0 "u" (some bodyA) =
      ([{ TableName := env0.TABLE_NAME,
          Item := objSpread [("pk", "POST#" ++ "u")]
            (postFields "A" "d" "a" "2025-01-01") }],
       .error (.storeError "ServiceUnavailable")) :=
  create_store_failure_propagates parseJSONConcrete sendFail env0 "u" bodyA
    "ServiceUnavailable" (postFields "A" "d" "a" "2025-01-01") (by decide) rfl rfl

/-- C7: every declared endpoint of the API — GET and POST on `/posts`,
GET and DELETE on `/posts/\x7bid\x7d` — is declared with
`apiKeyRequired: true`, and the REST API's key source is the header, so
the gateway demands the pre-shared API key before invoking any
handler. -/
theorem restApiStack_all_methods_require_apiKey :
    (restApiMethods.map fun m => (m.resourcePath, m.httpMethod)) =
      [("/posts", "GET"), ("/posts", "POST"),
       ("/posts/\x7bid\x7d", "GET"), ("/posts/\x7bid\x7d", "DELETE")] ∧
    (restApiMethods.all fun m => m.apiKeyRequired) = true ∧
    apiKeySource = "HEADER" :=
  ⟨rfl, rfl, rfl⟩

/-- C10: the handler adds exactly one attribute of its own — the
written item is the spread of `("pk", POST#` ++ uuid`)` with the parsed
body fields — so when the body supplies neither an `id` nor a `pk`
member, the item carries no `id` attribute at all and the generated
identifier appears only embedded in the `pk` attribute, prefixed with
`POST#`. -/
theorem create_no_standalone_id
    (parseJSON : String → Except String Obj)
    (send : PutCommandInput → Except String Unit) (env : Env)
    (uuid b : String) (fields : Obj) (hb : b ≠ "")
    (hp : parseJSON b = .ok fields)
    (hid : ∀ q ∈ fields, q.1 ≠ "id") (hpk : ∀ q ∈ fields, q.1 ≠ "pk") :
    (create parseJSON send env uuid (some b)).1.map (fun c => c.Item) =
      [objSpread [("pk", "POST#" ++ uuid)] fields] ∧
    (create parseJSON send env uuid (some b)).1.map
        (fun c => assocGet c.Item "id") = [none] ∧
    (create parseJSON send env uuid (some b)).1.map
        (fun c => assocGet c.Item "pk") = [some ("POST#" ++ uuid)] := by
  refine ⟨by simp [create, hb, hp], ?_, ?_⟩
  · simp [create, hb, hp, assocGet_objSpread_of_not_mem _ _ _ hid, assocGet]
  · simp [create, hb, hp, assocGet_objSpread_of_not_mem _ _ _ hpk, assocGet]

/-- Witness for C10, at the README's example body. -/
theorem create_no_standalone_id_witness :
    (create parseJSONConcrete sendOk env0 "u" (some bodyA)).1.map (fun c => c.Item) =
      [objSpread [("pk", "POST#" ++ "u")] (postFields "A" "d" "a" "2025-01-01")] ∧
    (create parseJSONConcrete sendOk env0 "u" (some bodyA)).1.map
        (fun c => assocGet c.Item "id") = [none] ∧
    (create parseJSONConcrete sendOk env0 "u" (some bodyA)).1.map
        (fun c => assocGet c.Item "pk") = [some ("POST#" ++ "u")] :=
  create_no_standalone_id parseJSONConcrete sendOk env0 "u" bodyA
    (postFields "A" "d" "a" "2025-01-01") (by decide) rfl (by decide) (by decide)

end RestAPI
